import Mathlib

/-!
Verification of the akahu_to_budget repository's mapping pipeline.

The development shallowly embeds the three source files:
  * `akahu_budget_mapping.py` (the mapping script whose `main()` drives the
    fetch / change-detect / merge / match / persist pipeline),
  * `flask_app.py` (scheduler and signal handling), and
  * `modules/config.py` (environment validation at import time).

The helper module `modules/account_mapper.py` (functions
`merge_and_update_mapping`, `check_for_changes`, `match_accounts`,
`remove_seq`, `load_existing_mapping`, `save_mapping`) is not part of the
repository snapshot; where its behaviour decides a property it is modelled
from the specification, and each such definition is marked
`Modelled from the spec:` in its doc comment.

Python values are embedded as follows: environments are functions
`String → Option String` (`none` = variable unset, mirroring `os.getenv`);
Python dicts keyed by strings become ordered association lists
`List (String × _)` (Python dicts preserve insertion order); a dict field
that may be absent is `Option v` where `v` itself is `Option String` so that
a key present with value `None` (`some none`) is distinguished from an
absent key (`none`).
-/

namespace AkahuToBudget

/-- The observable operations of `akahu_budget_mapping.main()`, in the order
the script can perform them.  `raiseKeyError` stands for the uncaught
`KeyError` escaping `main` (the `except` block logs and re-raises). -/
inductive Step where
  | fetchActual
  | fetchYnab
  | loadMapping
  | backfill
  | fetchAkahu
  | merge
  | sortAkahu
  | checkChanges
  | matchYnab
  | matchActual
  | removeSeq
  | saveMapping
  | raiseKeyError
deriving DecidableEq

/-- The `required_envs` list built at lines 50-68 of
`akahu_budget_mapping.py`: a fixed base plus Actual-Budget entries when
`RUN_SYNC_TO_AB` and YNAB entries when `RUN_SYNC_TO_YNAB`. -/
def requiredEnvsScript (ab ynab : Bool) : List String :=
  ["AKAHU_USER_TOKEN", "AKAHU_APP_TOKEN", "AKAHU_PUBLIC_KEY", "OPENAI_API_KEY"]
    ++ (if ab then ["ACTUAL_SERVER_URL", "ACTUAL_PASSWORD", "ACTUAL_SYNC_ID"] else [])
    ++ (if ynab then ["YNAB_BEARER_TOKEN", "YNAB_BUDGET_ID"] else [])

/-- `ENVs = {key: os.getenv(key) for key in required_envs}` (line 71):
an insertion-ordered dict from each required name to its (possibly unset)
value. -/
def mkENVs (env : String → Option String) (ab ynab : Bool) :
    List (String × Option String) :=
  (requiredEnvsScript ab ynab).map (fun k => (k, env k))

/-- The trace of `main()` from the YNAB fetch (line 108) onward, assuming the
Actual-Budget branch did not abort.  `c1, c2, c3` are the three booleans
returned by `check_for_changes` (akahu / actual / ynab "unchanged" flags,
line 147); matching runs only when not all three are true (lines 157-166),
first for YNAB then for Actual, each gated by its sync flag. -/
def afterFetchTrace (ab ynab c1 c2 c3 : Bool) : List Step :=
  (if ynab then [Step.fetchYnab] else [])
    ++ [Step.loadMapping, Step.backfill, Step.fetchAkahu, Step.merge,
        Step.sortAkahu, Step.checkChanges]
    ++ (if c1 && c2 && c3 then []
        else (if ynab then [Step.matchYnab] else [])
          ++ (if ab then [Step.matchActual] else []))
    ++ [Step.removeSeq, Step.saveMapping]

/-- The full trace of `main()` (lines 83-177 of `akahu_budget_mapping.py`).
When `RUN_SYNC_TO_AB` is set, the `Actual(...)` keyword arguments are
evaluated first; the last of them is `ENVs['ACTUAL_ENCRYPTION_KEY']`, a dict
subscript that raises `KeyError` when the key is absent from `ENVs`, which
the surrounding `try` logs and re-raises, aborting `main`. -/
def mainTrace (env : String → Option String) (ab ynab c1 c2 c3 : Bool) :
    List Step :=
  if ab then
    match (mkENVs env ab ynab).lookup "ACTUAL_ENCRYPTION_KEY" with
    | none => [Step.raiseKeyError]
    | some _ => Step.fetchActual :: afterFetchTrace ab ynab c1 c2 c3
  else
    afterFetchTrace ab ynab c1 c2 c3

/-- A concrete environment used to instantiate universally quantified
results: every variable is set to the string `"v"`. -/
def envW : String → Option String := fun _ => some "v"

/-- The observable actions of `flask_app.signal_handler`. -/
inductive HandlerAction where
  | logShutdown
  | shutdownScheduler (wait : Bool)
  | exitProcess (code : Nat)
deriving DecidableEq

/-- `flask_app.signal_handler` (lines 66-74): logs, shuts the scheduler down
with `wait=False` when one is running, and calls `sys.exit(0)`. -/
def signal_handler (schedulerRunning : Bool) : List HandlerAction :=
  [HandlerAction.logShutdown]
    ++ (if schedulerRunning then [HandlerAction.shutdownScheduler false] else [])
    ++ [HandlerAction.exitProcess 0]

/-- Whether an in-progress write of the mapping document completes before the
process exits: it does exactly when no write is in progress or the scheduler
shutdown waited for its running job to finish. -/
def writeCompletesBeforeExit (writeInProgress waitForJobs : Bool) : Bool :=
  !writeInProgress || waitForJobs

/-- A startup failure: the Python code raises `EnvironmentError` in both
cases. -/
inductive StartupError where
  | missingEnv (key : String)
  | noSyncTarget
deriving DecidableEq

/-- The `required_envs` list of `modules/config.py` (lines 12-21). -/
def configRequiredEnvs : List String :=
  ["ACTUAL_SERVER_URL", "ACTUAL_PASSWORD", "ACTUAL_SYNC_ID", "AKAHU_USER_TOKEN",
   "AKAHU_APP_TOKEN", "YNAB_BEARER_TOKEN", "RUN_SYNC_TO_YNAB", "RUN_SYNC_TO_AB"]

/-- A concrete environment that satisfies every `modules/config.py`
requirement (with YNAB sync enabled) but leaves the script-level
requirement `OPENAI_API_KEY` (and `YNAB_BUDGET_ID`) unset. -/
def envMissingOpenai : String → Option String := fun k =>
  if k == "RUN_SYNC_TO_YNAB" then some "true"
  else if configRequiredEnvs.contains k then some "v"
  else none

/-- The first required variable that `os.getenv` reports unset, if any
(the validation loops raise on the first missing key). -/
def firstMissing (env : String → Option String) (keys : List String) :
    Option String :=
  keys.find? (fun k => (env k).isNone)

/-- `ENVs[key].lower() == "true"` for a sync flag; an unset flag cannot be
enabled (config.py would already have raised). -/
def flagTrue (env : String → Option String) (key : String) : Bool :=
  match env key with
  | some s => s.toLower == "true"
  | none => false

/-- Import-time evaluation of `modules/config.py` (lines 12-54): validate the
eight required variables, parse the two sync flags, and fail unless at least
one sync target is enabled.  Returns `(RUN_SYNC_TO_AB, RUN_SYNC_TO_YNAB)`. -/
def configLoad (env : String → Option String) :
    Except StartupError (Bool × Bool) :=
  match firstMissing env configRequiredEnvs with
  | some k => Except.error (StartupError.missingEnv k)
  | none =>
      let ynab := flagTrue env "RUN_SYNC_TO_YNAB"
      let ab := flagTrue env "RUN_SYNC_TO_AB"
      if !ynab && !ab then Except.error StartupError.noSyncTarget
      else Except.ok (ab, ynab)

/-- Module-level evaluation of `akahu_budget_mapping.py`: importing
`modules.config` runs its validation first (line 38), then the script
validates its own `required_envs` (lines 78-81). -/
def scriptStartup (env : String → Option String) :
    Except StartupError (Bool × Bool) :=
  match configLoad env with
  | Except.error e => Except.error e
  | Except.ok (ab, ynab) =>
      match firstMissing env (requiredEnvsScript ab ynab) with
      | some k => Except.error (StartupError.missingEnv k)
      | none => Except.ok (ab, ynab)

/-- The whole program: startup validation, then `main()`.  On a startup
error no step of `main` executes. -/
def startupThenMain (env : String → Option String) (c1 c2 c3 : Bool) :
    Except StartupError (List Step) :=
  match scriptStartup env with
  | Except.error e => Except.error e
  | Except.ok (ab, ynab) => Except.ok (mainTrace env ab ynab c1 c2 c3)

/-- An account record as fetched from a platform: display name, balance,
an optional transient pagination sequence number, and the soft-delete
marker the reconciler sets for accounts missing from a fresh snapshot. -/
structure AccountRecord where
  name : String
  balance : Int
  seq : Option Nat
  removed : Bool
deriving DecidableEq

/-- A per-platform catalog: a Python dict `account_id -> record`, embedded
as an insertion-ordered association list. -/
abbrev Catalog := List (String × AccountRecord)

/-- A mapping entry (a Python dict).  Each field of type
`Option (Option String)` encodes dict-key presence in the outer `Option`
and the Python value (`None` or a string) in the inner one. -/
structure Entry where
  akahu_name : Option (Option String)
  akahu_account_id : Option (Option String)
  actual_account_id : Option (Option String)
  actual_budget_id : Option (Option String)
  ynab_account_id : Option (Option String)
  ynab_budget_id : Option (Option String)
  others : List (String × String)
deriving DecidableEq

/-- The cross-platform mapping table, keyed by akahu account id. -/
abbrev Mapping := List (String × Entry)

/-- The mapping document: the unit of persistence
(`{akahu_accounts, actual_accounts, ynab_accounts, mapping}`). -/
structure Doc where
  akahu_accounts : Catalog
  actual_accounts : Catalog
  ynab_accounts : Catalog
  mapping : Mapping
deriving DecidableEq

/-- A Python dict has no duplicate keys. -/
def keysNodup {β : Type} (c : List (String × β)) : Prop :=
  (c.map Prod.fst).Nodup

instance {β : Type} (c : List (String × β)) : Decidable (keysNodup c) := by
  unfold keysNodup
  infer_instance

/-- The retrofit performed on one mapping entry at the start of `main()`
(lines 117-123): add `ynab_budget_id` from `os.getenv('YNAB_BUDGET_ID')`
when `ynab_account_id` is a key of the entry and `ynab_budget_id` is not,
and likewise `actual_budget_id` from `os.getenv('ACTUAL_SYNC_ID')`. -/
def backfillEntry (env : String → Option String) (e : Entry) : Entry :=
  let e1 :=
    if e.ynab_account_id.isSome && e.ynab_budget_id.isNone then
      { e with ynab_budget_id := some (env "YNAB_BUDGET_ID") }
    else e
  if e1.actual_account_id.isSome && e1.actual_budget_id.isNone then
    { e1 with actual_budget_id := some (env "ACTUAL_SYNC_ID") }
  else e1

/-- The backfill loop over `existing_mapping.values()`. -/
def backfillMapping (env : String → Option String) (m : Mapping) : Mapping :=
  m.map (fun kv => (kv.1, backfillEntry env kv.2))

/-- Modelled from the spec: `modules/account_mapper.py` is not part of the
repository snapshot.  Per spec section 4.3, the merge folds a fresh catalog
into the persisted one: an account in both has its fields refreshed from the
fresh snapshot; one only in the persisted catalog is retained with a
soft-delete marker; one only in the fresh snapshot is appended. -/
def mergeCatalog (existing fresh : Catalog) : Catalog :=
  (existing.map (fun kv =>
    match fresh.lookup kv.1 with
    | some r => (kv.1, r)
    | none => (kv.1, { kv.2 with removed := true })))
    ++ fresh.filter (fun kv => (existing.lookup kv.1).isNone)

/-- Modelled from the spec: `merge_and_update_mapping` of
`modules/account_mapper.py` (missing from the snapshot).  Per spec sections
4.3 and 8, each platform catalog is merged and mapping entries are retained
unmodified.  Returns `(mapping, akahu, actual, ynab)` as `main()` unpacks
it. -/
def merge_and_update_mapping (m : Mapping)
    (latestAkahu latestActual latestYnab : Catalog)
    (existingAkahu existingActual existingYnab : Catalog) :
    Mapping × Catalog × Catalog × Catalog :=
  (m, mergeCatalog existingAkahu latestAkahu,
    mergeCatalog existingActual latestActual,
    mergeCatalog existingYnab latestYnab)

/-- The business-relevant fields of spec section 4.2: name and balance. -/
def sameBusinessFields (a b : AccountRecord) : Bool :=
  a.name == b.name && a.balance == b.balance

/-- Modelled from the spec: the per-platform "unchanged" test of
`check_for_changes` (spec section 4.2): true iff the two catalogs have the
same account ids and every record's name and balance agree. -/
def unchangedCatalog (old new : Catalog) : Bool :=
  old.all (fun kv =>
      match new.lookup kv.1 with
      | some r => sameBusinessFields kv.2 r
      | none => false)
    && new.all (fun kv => (old.lookup kv.1).isSome)

/-- Modelled from the spec: `check_for_changes` of
`modules/account_mapper.py` (missing from the snapshot), returning the
(akahu, actual, ynab) "unchanged" booleans `main()` destructures. -/
def check_for_changes (existingAkahu latestAkahu existingActual latestActual
    existingYnab latestYnab : Catalog) : Bool × Bool × Bool :=
  (unchangedCatalog existingAkahu latestAkahu,
    unchangedCatalog existingActual latestActual,
    unchangedCatalog existingYnab latestYnab)

/-- Strip the transient pagination sequence number from one record. -/
def removeSeqRecord (r : AccountRecord) : AccountRecord :=
  { r with seq := none }

/-- Strip sequence numbers from every record of a catalog. -/
def removeSeqCatalog (c : Catalog) : Catalog :=
  c.map (fun kv => (kv.1, removeSeqRecord kv.2))

/-- Modelled from the spec: `remove_seq` of `modules/account_mapper.py`
(missing from the snapshot), which strips the run-local "sequence"/cursor
fields from the document before it is saved (spec section 4.1). -/
def remove_seq (d : Doc) : Doc :=
  Doc.mk (removeSeqCatalog d.akahu_accounts)
    (removeSeqCatalog d.actual_accounts)
    (removeSeqCatalog d.ynab_accounts)
    d.mapping

/-- The sort key of line 141: `x[1]['name'].lower()`. -/
def akahuSortKey (r : AccountRecord) : String :=
  r.name.toLower

/-- Python's `sorted` orders ascending by key; it is a stable sort, so it is
extensionally insertion sort by non-strict key comparison. -/
def akahuLe (a b : String × AccountRecord) : Prop :=
  akahuSortKey a.2 ≤ akahuSortKey b.2

instance : DecidableRel akahuLe := fun a b =>
  inferInstanceAs (Decidable (akahuSortKey a.2 ≤ akahuSortKey b.2))

instance : IsTotal (String × AccountRecord) akahuLe :=
  ⟨fun a b => le_total (akahuSortKey a.2) (akahuSortKey b.2)⟩

instance : IsTrans (String × AccountRecord) akahuLe :=
  ⟨fun _ _ _ hab hbc => le_trans hab hbc⟩

/-- `dict(sorted(akahu_accounts.items(), key=lambda x: x[1]['name'].lower()))`
(lines 139-142). -/
def sortAkahuCatalog (c : Catalog) : Catalog :=
  c.insertionSort akahuLe

/-- The merge+match+persist pipeline of `main()` (lines 115-177) from the
loaded document onward: backfill budget ids, merge, sort the akahu catalog,
detect changes against the previously persisted catalogs, match only when
some platform changed (YNAB first, then Actual, each gated by its sync
flag), strip sequence fields and return the document handed to
`save_mapping`.  `matchFn` abstracts `match_accounts` (missing from the
snapshot): it receives the working mapping, the source catalog, the target
catalog and the platform tag, and returns the updated mapping. -/
def pipelineRun (matchFn : Mapping → Catalog → Catalog → String → Mapping)
    (env : String → Option String) (ab ynab : Bool)
    (persisted : Doc) (latestAkahu latestActual latestYnab : Catalog) : Doc :=
  let existingMapping := backfillMapping env persisted.mapping
  let merged := merge_and_update_mapping existingMapping
    latestAkahu latestActual latestYnab
    persisted.akahu_accounts persisted.actual_accounts persisted.ynab_accounts
  let mergedMapping := merged.1
  let akahuAccounts := sortAkahuCatalog merged.2.1
  let actualAccounts := merged.2.2.1
  let ynabAccounts := merged.2.2.2
  let changes := check_for_changes persisted.akahu_accounts latestAkahu
    persisted.actual_accounts latestActual persisted.ynab_accounts latestYnab
  let newMapping :=
    if changes.1 && changes.2.1 && changes.2.2 then mergedMapping
    else
      let m1 := if ynab then matchFn mergedMapping akahuAccounts ynabAccounts "ynab"
        else mergedMapping
      if ab then matchFn m1 akahuAccounts actualAccounts "actual" else m1
  remove_seq (Doc.mk akahuAccounts actualAccounts ynabAccounts newMapping)

/-- One run in which the freshly fetched snapshots are identical to the
persisted ones ("no upstream changes"). -/
def runNoUpstreamChanges
    (matchFn : Mapping → Catalog → Catalog → String → Mapping)
    (env : String → Option String) (ab ynab : Bool) (d : Doc) : Doc :=
  pipelineRun matchFn env ab ynab d
    d.akahu_accounts d.actual_accounts d.ynab_accounts

/-- No record of any persisted catalog still carries a transient sequence
number. -/
def docSeqFree (d : Doc) : Bool :=
  (d.akahu_accounts ++ d.actual_accounts ++ d.ynab_accounts).all
    (fun kv => kv.2.seq.isNone)

/-- A concrete stand-in for `match_accounts` that confirms nothing. -/
def matchFnId : Mapping → Catalog → Catalog → String → Mapping :=
  fun m _ _ _ => m

/-- A concrete mapping entry with both budget-id fields already present. -/
def entryW : Entry :=
  { akahu_name := some (some "Everyday"), akahu_account_id := some (some "acc_1"),
    actual_account_id := some (some "actual_1"),
    actual_budget_id := some (some "budget_a"),
    ynab_account_id := some (some "ynab_1"),
    ynab_budget_id := some (some "budget_y"), others := [] }

/-- A concrete persisted document with unsorted akahu accounts and stale
sequence numbers. -/
def docW : Doc :=
  { akahu_accounts :=
      [("a2", ⟨"Bravo", 5, some 3, false⟩), ("a1", ⟨"alpha", 2, some 7, false⟩)],
    actual_accounts := [("x1", ⟨"Main", 0, none, false⟩)],
    ynab_accounts := [("y1", ⟨"Main", 0, some 1, false⟩)],
    mapping :=
      [("a1", { akahu_name := some (some "alpha"),
                akahu_account_id := some (some "a1"),
                actual_account_id := some (some "x1"), actual_budget_id := none,
                ynab_account_id := some (some "y1"), ynab_budget_id := none,
                others := [] })] }

theorem lookup_encryption_key_none (env : String → Option String)
    (ab ynab : Bool) :
    (mkENVs env ab ynab).lookup "ACTUAL_ENCRYPTION_KEY" = none := by
  cases ab <;> cases ynab <;> rfl

theorem mainTrace_eq (env : String → Option String) (ab ynab c1 c2 c3 : Bool) :
    mainTrace env ab ynab c1 c2 c3 =
      if ab then [Step.raiseKeyError] else afterFetchTrace ab ynab c1 c2 c3 := by
  unfold mainTrace
  rw [lookup_encryption_key_none]

/-- C1 counterexample: a concrete completed run (`RUN_SYNC_TO_AB = False`,
`RUN_SYNC_TO_YNAB = True`, changes detected) in which `merge` occurs strictly
before `checkChanges`, refuting the claim that per-platform change detection
is performed before the merge/reconciliation step. -/
theorem checkChanges_not_before_merge :
    ¬ (mainTrace envW false true false true true).indexOf Step.checkChanges <
        (mainTrace envW false true false true true).indexOf Step.merge := by
  decide

/-- C1 (amended): in every run of `main()`, the pipeline executes in the
order Fetchers, then Merge/Reconciler, then Change Detector, then Matcher,
then persist: `fetch_akahu` precedes `merge_and_update_mapping`, which
precedes `check_for_changes`, which precedes any `match_accounts` call,
which precedes `save_mapping`. -/
theorem pipeline_order (env : String → Option String) (ab ynab c1 c2 c3 : Bool) :
    (Step.checkChanges ∈ mainTrace env ab ynab c1 c2 c3 →
      Step.merge ∈ mainTrace env ab ynab c1 c2 c3 ∧
        (mainTrace env ab ynab c1 c2 c3).indexOf Step.merge <
          (mainTrace env ab ynab c1 c2 c3).indexOf Step.checkChanges) ∧
    (Step.merge ∈ mainTrace env ab ynab c1 c2 c3 →
      (mainTrace env ab ynab c1 c2 c3).indexOf Step.fetchAkahu <
        (mainTrace env ab ynab c1 c2 c3).indexOf Step.merge) ∧
    (Step.matchYnab ∈ mainTrace env ab ynab c1 c2 c3 →
      (mainTrace env ab ynab c1 c2 c3).indexOf Step.checkChanges <
          (mainTrace env ab ynab c1 c2 c3).indexOf Step.matchYnab ∧
        (mainTrace env ab ynab c1 c2 c3).indexOf Step.matchYnab <
          (mainTrace env ab ynab c1 c2 c3).indexOf Step.saveMapping) ∧
    (Step.matchActual ∈ mainTrace env ab ynab c1 c2 c3 →
      (mainTrace env ab ynab c1 c2 c3).indexOf Step.checkChanges <
          (mainTrace env ab ynab c1 c2 c3).indexOf Step.matchActual ∧
        (mainTrace env ab ynab c1 c2 c3).indexOf Step.matchActual <
          (mainTrace env ab ynab c1 c2 c3).indexOf Step.saveMapping) ∧
    (Step.saveMapping ∈ mainTrace env ab ynab c1 c2 c3 →
      (mainTrace env ab ynab c1 c2 c3).indexOf Step.checkChanges <
        (mainTrace env ab ynab c1 c2 c3).indexOf Step.saveMapping) := by
  rw [mainTrace_eq]
  cases ab <;> cases ynab <;> cases c1 <;> cases c2 <;> cases c3 <;> decide

/-- Witness for `pipeline_order` at a concrete completed run. -/
theorem pipeline_order_witness :
    Step.checkChanges ∈ mainTrace envW false true false true true ∧
      (Step.merge ∈ mainTrace envW false true false true true ∧
        (mainTrace envW false true false true true).indexOf Step.merge <
          (mainTrace envW false true false true true).indexOf Step.checkChanges) :=
  ⟨by decide, (pipeline_order envW false true false true true).1 (by decide)⟩

/-- C2: if `check_for_changes` reports "unchanged" for all three platforms,
`match_accounts` is not invoked at all in that run (for either target
platform). -/
theorem change_skip (env : String → Option String) (ab ynab c1 c2 c3 : Bool) :
    (c1 && c2 && c3) = true →
      Step.matchYnab ∉ mainTrace env ab ynab c1 c2 c3 ∧
        Step.matchActual ∉ mainTrace env ab ynab c1 c2 c3 := by
  rw [mainTrace_eq]
  cases ab <;> cases ynab <;> cases c1 <;> cases c2 <;> cases c3 <;> decide

/-- Witness for `change_skip` at a concrete run with all three platforms
unchanged. -/
theorem change_skip_witness :
    (true && true && true) = true ∧
      (Step.matchYnab ∉ mainTrace envW false true true true true ∧
        Step.matchActual ∉ mainTrace envW false true true true true) :=
  ⟨rfl, change_skip envW false true true true true rfl⟩

/-- C4: `'ACTUAL_ENCRYPTION_KEY'` is never in the script's `required_envs`
list, so whenever `RUN_SYNC_TO_AB` is true the dict subscript
`ENVs['ACTUAL_ENCRYPTION_KEY']` raises `KeyError` and `main()` aborts before
performing any fetch, match or save: its whole trace is the re-raised
`KeyError`. -/
theorem ab_branch_always_raises (env : String → Option String)
    (ynab c1 c2 c3 : Bool) :
    "ACTUAL_ENCRYPTION_KEY" ∉ requiredEnvsScript true ynab ∧
      mainTrace env true ynab c1 c2 c3 = [Step.raiseKeyError] := by
  refine ⟨?_, ?_⟩
  · cases ynab <;> decide
  · rw [mainTrace_eq]
    rfl

/-- C5 (code evaluation): the signal handler shuts the scheduler down with
`wait = false` and never with `wait = true`, so when a write is in progress
at signal delivery the write is not guaranteed to complete before exit —
contradicting the claimed graceful-shutdown behaviour. -/
theorem signal_handler_does_not_wait :
    HandlerAction.shutdownScheduler false ∈ signal_handler true ∧
      HandlerAction.shutdownScheduler true ∉ signal_handler true ∧
      HandlerAction.shutdownScheduler true ∉ signal_handler false ∧
      writeCompletesBeforeExit true false = false := by
  decide

/-- C6: if any required configuration variable is missing — whether from
`modules/config.py`'s list (lines 12-21) or from the mapping script's own
flag-dependent `required_envs` (lines 50-68, validated at lines 78-81) — or
neither `RUN_SYNC_TO_YNAB` nor `RUN_SYNC_TO_AB` parses as enabled, startup
fails with an error and no fetch, reconciliation or sync step is reached. -/
theorem startup_error_blocks_run (env : String → Option String)
    (c1 c2 c3 : Bool)
    (h : (∃ k ∈ configRequiredEnvs, env k = none) ∨
      (flagTrue env "RUN_SYNC_TO_YNAB" = false ∧
        flagTrue env "RUN_SYNC_TO_AB" = false) ∨
      (∃ k ∈ requiredEnvsScript (flagTrue env "RUN_SYNC_TO_AB")
          (flagTrue env "RUN_SYNC_TO_YNAB"), env k = none)) :
    ∃ e, startupThenMain env c1 c2 c3 = Except.error e := by
  cases hm : firstMissing env configRequiredEnvs with
  | some k =>
      exact ⟨StartupError.missingEnv k, by
        unfold startupThenMain scriptStartup configLoad
        rw [hm]⟩
  | none =>
      rcases h with hmiss | hflags | hscript
      · exfalso
        rcases hmiss with ⟨k, hk, hnone⟩
        have := List.find?_eq_none.mp hm k hk
        simp [hnone] at this
      · exact ⟨StartupError.noSyncTarget, by
          unfold startupThenMain scriptStartup configLoad
          rw [hm]
          simp [hflags.1, hflags.2]⟩
      · cases hyn : flagTrue env "RUN_SYNC_TO_YNAB" <;>
          cases hab : flagTrue env "RUN_SYNC_TO_AB" <;>
          rw [hyn, hab] at hscript
        · exact ⟨StartupError.noSyncTarget, by
            unfold startupThenMain scriptStartup configLoad
            rw [hm]
            simp [hyn, hab]⟩
        · cases hm2 : firstMissing env (requiredEnvsScript true false) with
          | some k =>
              exact ⟨StartupError.missingEnv k, by
                unfold startupThenMain scriptStartup configLoad
                rw [hm]
                simp [hyn, hab, hm2]⟩
          | none =>
              exfalso
              rcases hscript with ⟨k, hk, hnone⟩
              have := List.find?_eq_none.mp hm2 k hk
              simp [hnone] at this
        · cases hm2 : firstMissing env (requiredEnvsScript false true) with
          | some k =>
              exact ⟨StartupError.missingEnv k, by
                unfold startupThenMain scriptStartup configLoad
                rw [hm]
                simp [hyn, hab, hm2]⟩
          | none =>
              exfalso
              rcases hscript with ⟨k, hk, hnone⟩
              have := List.find?_eq_none.mp hm2 k hk
              simp [hnone] at this
        · cases hm2 : firstMissing env (requiredEnvsScript true true) with
          | some k =>
              exact ⟨StartupError.missingEnv k, by
                unfold startupThenMain scriptStartup configLoad
                rw [hm]
                simp [hyn, hab, hm2]⟩
          | none =>
              exfalso
              rcases hscript with ⟨k, hk, hnone⟩
              have := List.find?_eq_none.mp hm2 k hk
              simp [hnone] at this

/-- Witness for `startup_error_blocks_run`: an environment that satisfies
all of `modules/config.py`'s requirements with YNAB sync enabled, but lacks
the script-level requirement `OPENAI_API_KEY`, still fails startup. -/
theorem startup_error_blocks_run_witness :
    ((∃ k ∈ configRequiredEnvs, envMissingOpenai k = none) ∨
        (flagTrue envMissingOpenai "RUN_SYNC_TO_YNAB" = false ∧
          flagTrue envMissingOpenai "RUN_SYNC_TO_AB" = false) ∨
        (∃ k ∈ requiredEnvsScript (flagTrue envMissingOpenai "RUN_SYNC_TO_AB")
            (flagTrue envMissingOpenai "RUN_SYNC_TO_YNAB"),
          envMissingOpenai k = none)) ∧
      ∃ e, startupThenMain envMissingOpenai true true true = Except.error e :=
  ⟨Or.inr (Or.inr ⟨"OPENAI_API_KEY", by decide, by decide⟩),
    startup_error_blocks_run envMissingOpenai true true true
      (Or.inr (Or.inr ⟨"OPENAI_API_KEY", by decide, by decide⟩))⟩

theorem lookup_eq_none_iff {β : Type} (c : List (String × β)) (k : String) :
    c.lookup k = none ↔ k ∉ c.map Prod.fst := by
  induction c with
  | nil => simp
  | cons kv rest ih =>
      obtain ⟨k1, v1⟩ := kv
      by_cases h : k = k1
      · subst h
        simp
      · simp [List.lookup_cons, beq_false_of_ne h, h, ih]

theorem lookup_self {β : Type} (c : List (String × β)) (h : keysNodup c)
    {k : String} {v : β} (hm : (k, v) ∈ c) : c.lookup k = some v := by
  induction c with
  | nil => cases hm
  | cons kv rest ih =>
      obtain ⟨k1, v1⟩ := kv
      have hn := h
      unfold keysNodup at hn
      rw [List.map_cons, List.nodup_cons] at hn
      rcases List.mem_cons.mp hm with he | ht
      · rw [Prod.mk.injEq] at he
        rw [he.1, he.2]
        simp
      · have hk : k ≠ k1 := by
          intro hkk
          subst hkk
          exact hn.1 (List.mem_map.mpr ⟨(k, v), ht, rfl⟩)
        simp only [List.lookup_cons, beq_false_of_ne hk]
        exact ih hn.2 ht

theorem lookup_mem_keys {β : Type} (c : List (String × β)) {k : String}
    (hm : k ∈ c.map Prod.fst) : (c.lookup k).isSome = true := by
  cases hl : c.lookup k with
  | none => exact absurd ((lookup_eq_none_iff c k).mp hl) (by simp [hm])
  | some v => rfl

/-- A generic frame fact: mapping a key-preserving function over an
association list preserves the key list. -/
theorem map_fst_map_pair {β γ : Type} (f : String → β → γ)
    (l : List (String × β)) :
    (l.map (fun kv => (kv.1, f kv.1 kv.2))).map Prod.fst = l.map Prod.fst := by
  induction l with
  | nil => rfl
  | cons kv rest ih => simp [ih]

theorem mergeCatalog_self (c : Catalog) (h : keysNodup c) :
    mergeCatalog c c = c := by
  unfold mergeCatalog
  have hf : c.filter (fun kv => (c.lookup kv.1).isNone) = [] := by
    rw [List.filter_eq_nil_iff]
    intro kv hm
    rw [lookup_self c h (by rwa [Prod.mk.eta])]
    simp
  have hmap : c.map (fun kv =>
      match c.lookup kv.1 with
      | some r => (kv.1, r)
      | none => (kv.1, { kv.2 with removed := true })) = c := by
    have hcong : ∀ kv ∈ c, (match c.lookup kv.1 with
        | some r => (kv.1, r)
        | none => (kv.1, { kv.2 with removed := true })) = id kv := by
      intro kv hm
      rw [lookup_self c h (by rwa [Prod.mk.eta])]
      rfl
    rw [List.map_congr_left hcong, List.map_id]
  rw [hf, hmap, List.append_nil]

theorem sameBusinessFields_refl (a : AccountRecord) :
    sameBusinessFields a a = true := by
  simp [sameBusinessFields]

theorem unchangedCatalog_self (c : Catalog) (h : keysNodup c) :
    unchangedCatalog c c = true := by
  unfold unchangedCatalog
  rw [Bool.and_eq_true]
  refine ⟨List.all_eq_true.mpr ?_, List.all_eq_true.mpr ?_⟩
  · intro kv hm
    rw [lookup_self c h (by rwa [Prod.mk.eta])]
    exact sameBusinessFields_refl kv.2
  · intro kv hm
    exact lookup_mem_keys c (List.mem_map.mpr ⟨kv, hm, rfl⟩)

theorem removeSeqRecord_idem (r : AccountRecord) :
    removeSeqRecord (removeSeqRecord r) = removeSeqRecord r := rfl

theorem removeSeqCatalog_idem (c : Catalog) :
    removeSeqCatalog (removeSeqCatalog c) = removeSeqCatalog c := by
  unfold removeSeqCatalog
  rw [List.map_map]
  rfl

theorem removeSeqCatalog_keys (c : Catalog) :
    (removeSeqCatalog c).map Prod.fst = c.map Prod.fst :=
  map_fst_map_pair (fun _ r => removeSeqRecord r) c

theorem removeSeqCatalog_seq_none (c : Catalog) :
    (removeSeqCatalog c).all (fun kv => kv.2.seq.isNone) = true := by
  rw [List.all_eq_true]
  intro kv hm
  rcases List.mem_map.mp hm with ⟨kv0, _, hkv⟩
  rw [← hkv]
  rfl

theorem akahuSortKey_removeSeqRecord (r : AccountRecord) :
    akahuSortKey (removeSeqRecord r) = akahuSortKey r := rfl

theorem removeSeqCatalog_pairwise {c : Catalog}
    (h : List.Pairwise akahuLe c) :
    List.Pairwise akahuLe (removeSeqCatalog c) := by
  unfold removeSeqCatalog
  rw [List.pairwise_map]
  exact h.imp (fun hab => hab)

theorem sortAkahuCatalog_pairwise (c : Catalog) :
    List.Pairwise akahuLe (sortAkahuCatalog c) :=
  List.sorted_insertionSort akahuLe c

theorem sortAkahuCatalog_perm (c : Catalog) :
    List.Perm (sortAkahuCatalog c) c :=
  List.perm_insertionSort akahuLe c

theorem sortAkahuCatalog_of_pairwise {c : Catalog}
    (h : List.Pairwise akahuLe c) : sortAkahuCatalog c = c :=
  List.Sorted.insertionSort_eq h

theorem backfillEntry_idem (env : String → Option String) (e : Entry) :
    backfillEntry env (backfillEntry env e) = backfillEntry env e := by
  obtain ⟨an, aai, cai, cbi, yai, ybi, o⟩ := e
  cases yai <;> cases ybi <;> cases cai <;> cases cbi <;>
    simp [backfillEntry]

theorem backfillMapping_idem (env : String → Option String) (m : Mapping) :
    backfillMapping env (backfillMapping env m) = backfillMapping env m := by
  unfold backfillMapping
  rw [List.map_map]
  apply List.map_congr_left
  intro kv _
  simp [backfillEntry_idem]

theorem pipelineRun_catalogs
    (matchFn : Mapping → Catalog → Catalog → String → Mapping)
    (env : String → Option String) (ab ynab : Bool) (p : Doc)
    (lAk lAc lY : Catalog) :
    (pipelineRun matchFn env ab ynab p lAk lAc lY).akahu_accounts =
        removeSeqCatalog (sortAkahuCatalog (mergeCatalog p.akahu_accounts lAk)) ∧
      (pipelineRun matchFn env ab ynab p lAk lAc lY).actual_accounts =
        removeSeqCatalog (mergeCatalog p.actual_accounts lAc) ∧
      (pipelineRun matchFn env ab ynab p lAk lAc lY).ynab_accounts =
        removeSeqCatalog (mergeCatalog p.ynab_accounts lY) :=
  ⟨rfl, rfl, rfl⟩

/-- C7: the document `main()` hands to `save_mapping` has been processed by
`remove_seq`, so no transient sequence field survives into the persisted
document, whatever the fetched snapshots, flags or matcher behaviour. -/
theorem saved_document_seq_free
    (matchFn : Mapping → Catalog → Catalog → String → Mapping)
    (env : String → Option String) (ab ynab : Bool) (p : Doc)
    (lAk lAc lY : Catalog) :
    docSeqFree (pipelineRun matchFn env ab ynab p lAk lAc lY) = true := by
  have h := pipelineRun_catalogs matchFn env ab ynab p lAk lAc lY
  unfold docSeqFree
  rw [h.1, h.2.1, h.2.2]
  simp [List.all_append, removeSeqCatalog_seq_none]

/-- C10: before persistence the akahu catalog is re-ordered ascending by
each record's display name lower-cased, while the actual and ynab catalogs
keep exactly the key order the merge produced (only sequence fields are
stripped). -/
theorem akahu_sorted_other_catalogs_order_kept
    (matchFn : Mapping → Catalog → Catalog → String → Mapping)
    (env : String → Option String) (ab ynab : Bool) (p : Doc)
    (lAk lAc lY : Catalog) :
    List.Pairwise akahuLe
        (pipelineRun matchFn env ab ynab p lAk lAc lY).akahu_accounts ∧
      List.Perm
        ((pipelineRun matchFn env ab ynab p lAk lAc lY).akahu_accounts.map
          Prod.fst)
        ((mergeCatalog p.akahu_accounts lAk).map Prod.fst) ∧
      (pipelineRun matchFn env ab ynab p lAk lAc lY).actual_accounts.map
          Prod.fst =
        (mergeCatalog p.actual_accounts lAc).map Prod.fst ∧
      (pipelineRun matchFn env ab ynab p lAk lAc lY).ynab_accounts.map
          Prod.fst =
        (mergeCatalog p.ynab_accounts lY).map Prod.fst := by
  have h := pipelineRun_catalogs matchFn env ab ynab p lAk lAc lY
  refine ⟨?_, ?_, ?_, ?_⟩
  · rw [h.1]
    exact removeSeqCatalog_pairwise (sortAkahuCatalog_pairwise _)
  · rw [h.1, removeSeqCatalog_keys]
    exact (sortAkahuCatalog_perm _).map Prod.fst
  · rw [h.2.1, removeSeqCatalog_keys]
  · rw [h.2.2, removeSeqCatalog_keys]

theorem runNoUpstreamChanges_eq
    (matchFn : Mapping → Catalog → Catalog → String → Mapping)
    (env : String → Option String) (ab ynab : Bool) (d : Doc)
    (h1 : keysNodup d.akahu_accounts) (h2 : keysNodup d.actual_accounts)
    (h3 : keysNodup d.ynab_accounts) :
    runNoUpstreamChanges matchFn env ab ynab d =
      Doc.mk (removeSeqCatalog (sortAkahuCatalog d.akahu_accounts))
        (removeSeqCatalog d.actual_accounts)
        (removeSeqCatalog d.ynab_accounts)
        (backfillMapping env d.mapping) := by
  unfold runNoUpstreamChanges pipelineRun merge_and_update_mapping
    check_for_changes remove_seq
  simp only [mergeCatalog_self _ h1, mergeCatalog_self _ h2,
    mergeCatalog_self _ h3, unchangedCatalog_self _ h1,
    unchangedCatalog_self _ h2, unchangedCatalog_self _ h3,
    Bool.and_self, if_true]

/-- C9: with no upstream changes (every fetched snapshot identical to the
persisted catalog), running the merge+match+save pipeline a second time
returns exactly the document of the first run, and the second run's change
detector reports "unchanged" for all three platforms, so no matching (and
hence no prompt) occurs. -/
theorem pipeline_idempotent_no_upstream_changes
    (matchFn : Mapping → Catalog → Catalog → String → Mapping)
    (env : String → Option String) (ab ynab : Bool) (p : Doc)
    (h1 : keysNodup p.akahu_accounts) (h2 : keysNodup p.actual_accounts)
    (h3 : keysNodup p.ynab_accounts) :
    runNoUpstreamChanges matchFn env ab ynab
        (runNoUpstreamChanges matchFn env ab ynab p) =
      runNoUpstreamChanges matchFn env ab ynab p ∧
    check_for_changes
        (runNoUpstreamChanges matchFn env ab ynab p).akahu_accounts
        (runNoUpstreamChanges matchFn env ab ynab p).akahu_accounts
        (runNoUpstreamChanges matchFn env ab ynab p).actual_accounts
        (runNoUpstreamChanges matchFn env ab ynab p).actual_accounts
        (runNoUpstreamChanges matchFn env ab ynab p).ynab_accounts
        (runNoUpstreamChanges matchFn env ab ynab p).ynab_accounts =
      (true, true, true) := by
  have hd1 := runNoUpstreamChanges_eq matchFn env ab ynab p h1 h2 h3
  have hka : keysNodup (runNoUpstreamChanges matchFn env ab ynab p).akahu_accounts := by
    rw [hd1]
    unfold keysNodup
    rw [removeSeqCatalog_keys]
    exact ((sortAkahuCatalog_perm p.akahu_accounts).map Prod.fst).nodup_iff.mpr h1
  have hkb : keysNodup (runNoUpstreamChanges matchFn env ab ynab p).actual_accounts := by
    rw [hd1]
    unfold keysNodup
    rw [removeSeqCatalog_keys]
    exact h2
  have hkc : keysNodup (runNoUpstreamChanges matchFn env ab ynab p).ynab_accounts := by
    rw [hd1]
    unfold keysNodup
    rw [removeSeqCatalog_keys]
    exact h3
  have hpair : List.Pairwise akahuLe
      (runNoUpstreamChanges matchFn env ab ynab p).akahu_accounts := by
    rw [hd1]
    exact removeSeqCatalog_pairwise (sortAkahuCatalog_pairwise _)
  constructor
  · rw [runNoUpstreamChanges_eq matchFn env ab ynab _ hka hkb hkc]
    rw [sortAkahuCatalog_of_pairwise hpair]
    rw [hd1]
    simp only [removeSeqCatalog_idem, backfillMapping_idem]
  · unfold check_for_changes
    rw [unchangedCatalog_self _ hka, unchangedCatalog_self _ hkb,
      unchangedCatalog_self _ hkc]

/-- Witness for `pipeline_idempotent_no_upstream_changes` on a concrete
document with unsorted, sequence-carrying catalogs. -/
theorem pipeline_idempotent_witness :
    keysNodup docW.akahu_accounts ∧ keysNodup docW.actual_accounts ∧
      keysNodup docW.ynab_accounts ∧
      (runNoUpstreamChanges matchFnId envW false true
          (runNoUpstreamChanges matchFnId envW false true docW) =
        runNoUpstreamChanges matchFnId envW false true docW ∧
      check_for_changes
          (runNoUpstreamChanges matchFnId envW false true docW).akahu_accounts
          (runNoUpstreamChanges matchFnId envW false true docW).akahu_accounts
          (runNoUpstreamChanges matchFnId envW false true docW).actual_accounts
          (runNoUpstreamChanges matchFnId envW false true docW).actual_accounts
          (runNoUpstreamChanges matchFnId envW false true docW).ynab_accounts
          (runNoUpstreamChanges matchFnId envW false true docW).ynab_accounts =
        (true, true, true)) :=
  ⟨by decide, by decide, by decide,
    pipeline_idempotent_no_upstream_changes matchFnId envW false true docW
      (by decide) (by decide) (by decide)⟩

/-- C3: the budget-id backfill is purely additive: it never changes the
entry keys, the cached name, any of the three account-id fields or any other
field; it only fills a missing `ynab_budget_id` (when `ynab_account_id` is
present) or a missing `actual_budget_id` (when `actual_account_id` is
present) from current configuration, and an entry whose budget-id fields are
already present is left entirely unchanged. -/
theorem backfill_only_migration (env : String → Option String) (e : Entry)
    (m : Mapping) :
    (backfillMapping env m).map Prod.fst = m.map Prod.fst ∧
    (backfillEntry env e).akahu_name = e.akahu_name ∧
    (backfillEntry env e).akahu_account_id = e.akahu_account_id ∧
    (backfillEntry env e).actual_account_id = e.actual_account_id ∧
    (backfillEntry env e).ynab_account_id = e.ynab_account_id ∧
    (backfillEntry env e).others = e.others ∧
    (e.ynab_account_id.isSome = true → e.ynab_budget_id = none →
      (backfillEntry env e).ynab_budget_id = some (env "YNAB_BUDGET_ID")) ∧
    (e.ynab_account_id = none →
      (backfillEntry env e).ynab_budget_id = e.ynab_budget_id) ∧
    (e.ynab_budget_id.isSome = true →
      (backfillEntry env e).ynab_budget_id = e.ynab_budget_id) ∧
    (e.actual_account_id.isSome = true → e.actual_budget_id = none →
      (backfillEntry env e).actual_budget_id = some (env "ACTUAL_SYNC_ID")) ∧
    (e.actual_account_id = none →
      (backfillEntry env e).actual_budget_id = e.actual_budget_id) ∧
    (e.actual_budget_id.isSome = true →
      (backfillEntry env e).actual_budget_id = e.actual_budget_id) ∧
    (e.ynab_budget_id.isSome = true → e.actual_budget_id.isSome = true →
      backfillEntry env e = e) := by
  refine ⟨?_, ?_⟩
  · unfold backfillMapping
    exact map_fst_map_pair (fun _ v => backfillEntry env v) m
  obtain ⟨an, aai, cai, cbi, yai, ybi, o⟩ := e
  cases yai <;> cases ybi <;> cases cai <;> cases cbi <;>
    simp [backfillEntry]

/-- Witness for `backfill_only_migration`: an entry that already carries
both budget ids passes through the backfill unchanged. -/
theorem backfill_only_migration_witness :
    entryW.ynab_budget_id.isSome = true ∧
      entryW.actual_budget_id.isSome = true ∧
      backfillEntry envW entryW = entryW :=
  ⟨rfl, rfl,
    (backfill_only_migration envW entryW []).2.2.2.2.2.2.2.2.2.2.2.2 rfl rfl⟩

end AkahuToBudget
